import Mathlib

/-!
Shallow embedding of the stripe-rs resource modules
`src/stripe/src/resources/payment_intents.rs` and
`src/stripe/src/resources/payout.rs`.

The crate-internal collaborators that these modules import (`client::Client`,
`params::{Identifiable, List, Metadata, RangeQuery, Timestamp}`,
`error::Error`, and the `serde_qs` query-string serializer) are not part of
the two resource source files; they are modelled from the specification,
each with a doc comment saying so.  Operations are modelled as pure
functions that return the HTTP request they would hand to the transport
collaborator.
-/

/-- JSON values: the wire format for request bodies (spec section 6). -/
inductive Json where
  | null
  | bool (b : Bool)
  | num (n : Int)
  | str (s : String)
  | arr (elems : List Json)
  | obj (fields : List (String × Json))

/-- Whether a JSON value is the explicit `null`. -/
def Json.isNull : Json → Bool
  | .null => true
  | _ => false

/-- Modelled from the spec: `Timestamp` (section 3) is an integer count of
seconds since a fixed epoch; the missing `params.rs` declares it. -/
abbrev Timestamp := Int

/-- Modelled from the spec: the `Metadata` map (sections 3 and 4.1), an
ordered string-to-string mapping; the missing `params.rs` declares it. -/
abbrev Metadata := List (String × String)

/-- Modelled from the spec: `resources::Currency` (an out-of-scope
per-resource type not under `src/`), a currency code string such as
`"usd"` (section 8). -/
structure Currency where
  code : String

/-- Modelled from the spec: `resources::Charge` is an out-of-scope
per-resource record (section 1); only its identifier matters here, as the
element type of the embedded charge list. -/
structure Charge where
  id : String

/-- Modelled from the spec: `resources::ShippingDetails` is an out-of-scope
nested per-resource record (section 1), kept opaque as named string
fields. -/
structure ShippingDetails where
  fields : List (String × String)

/-- Modelled from the spec: the `Identifiable` capability (section 4.3)
declared by the missing `params.rs` — a single accessor returning the
resource's identifier string. -/
class Identifiable (α : Type) where
  id : α → String

/-- Modelled from the spec: the paginated list container (sections 3 and
4.4) declared by the missing `params.rs` under the source name `List`
(renamed here to avoid clashing with the prelude): an ordered page of
elements, a `has_more` flag and the originating collection URL. -/
structure StripeList (α : Type) where
  data : List α
  has_more : Bool
  url : String

/-- Modelled from the spec: `RangeQuery<T>` (section 3) declared by the
missing `params.rs` — four optional bounds on a comparable scalar. -/
structure RangeQuery (α : Type) where
  gt : Option α
  gte : Option α
  lt : Option α
  lte : Option α

/-- Modelled from the spec: a decode failure (section 7, `DecodeError`). -/
structure DecodeError where
  message : String
deriving DecidableEq

/-- Modelled from the spec: an encoding failure (section 7,
`EncodingError`: parameters could not be serialized, e.g. illegal
characters where encoding rules forbid them). -/
structure EncodingError where
  message : String
deriving DecidableEq

/-- Modelled from the spec: the error kinds of the missing `error.rs`
(section 7). -/
inductive Error where
  | transport (message : String)
  | api (message : String)
  | decode (e : DecodeError)
  | invalidCursor
  | encoding (e : EncodingError)

/-- HTTP verbs used by the operation templates. -/
inductive Method where
  | get
  | post
deriving DecidableEq

/-- Modelled from the spec: the request an operation template hands to the
transport collaborator (section 6) — a verb, a path (with the query string
already interpolated for GET), and the serialized parameter fields of the
body.  An empty field list is an empty body. -/
structure Request where
  method : Method
  path : String
  body : List (String × Json)

/-- Modelled from the spec: `Client::get` of the missing `client.rs` —
records the GET request that would be issued (section 6). -/
def Client.get (path : String) : Request :=
  ⟨Method.get, path, []⟩

/-- Modelled from the spec: `Client::post` of the missing `client.rs` —
records the POST request with the serialized parameter fields as body;
unset optional fields are omitted, never sent as explicit nulls
(section 4.5). -/
def Client.post (path : String) (body : List (String × Json)) : Request :=
  ⟨Method.post, path, body⟩

/-- Modelled from the spec: the no-body POST variant of the missing
`client.rs` (section 6). -/
def Client.postEmpty (path : String) : Request :=
  ⟨Method.post, path, []⟩

/-! ## Enumerations of `payment_intents.rs` and `payout.rs`

Each Rust enum carries `#[serde(rename_all = "snake_case")]` (or explicit
`#[serde(rename = ...)]` for `PaymentErrorType`) and a final
`#[serde(other)] Other` unit variant.  `toWire` embeds the derived
`Serialize` output; `fromWire` embeds the derived `Deserialize` behaviour:
a known wire name yields its variant and any other string yields `Other`
(serde's `other` attribute, which discards the input string). -/

/-- `PaymentErrorType` of `payment_intents.rs`. -/
inductive PaymentErrorType where
  | Api
  | Connection
  | Authentication
  | Card
  | Idempotency
  | InvalidRequest
  | RateLimit
  | Other
deriving DecidableEq

/-- `PaymentIntentStatus` of `payment_intents.rs`. -/
inductive PaymentIntentStatus where
  | RequiresSource
  | RequiresConfirmation
  | RequiresSourceAction
  | Processing
  | RequiresCapture
  | Canceled
  | Succeeded
  | Other
deriving DecidableEq

/-- Serialization of `PaymentIntentStatus` (`rename_all = "snake_case"`). -/
def PaymentIntentStatus.toWire : PaymentIntentStatus → String
  | .RequiresSource => "requires_source"
  | .RequiresConfirmation => "requires_confirmation"
  | .RequiresSourceAction => "requires_source_action"
  | .Processing => "processing"
  | .RequiresCapture => "requires_capture"
  | .Canceled => "canceled"
  | .Succeeded => "succeeded"
  | .Other => "other"

/-- The known wire names of `PaymentIntentStatus` (all variants except the
`#[serde(other)]` catch-all). -/
def paymentIntentStatusWireNames : List String :=
  ["requires_source", "requires_confirmation", "requires_source_action",
   "processing", "requires_capture", "canceled", "succeeded"]

/-- Deserialization of `PaymentIntentStatus`: known snake_case names map to
their variants, anything else to the `#[serde(other)]` variant. -/
def PaymentIntentStatus.fromWire (s : String) : PaymentIntentStatus :=
  if s = "requires_source" then .RequiresSource
  else if s = "requires_confirmation" then .RequiresConfirmation
  else if s = "requires_source_action" then .RequiresSourceAction
  else if s = "processing" then .Processing
  else if s = "requires_capture" then .RequiresCapture
  else if s = "canceled" then .Canceled
  else if s = "succeeded" then .Succeeded
  else .Other

/-- `CancellationReason` of `payment_intents.rs`. -/
inductive CancellationReason where
  | Duplicate
  | Fraudulent
  | RequestedByCustomer
  | Other
deriving DecidableEq

/-- Serialization of `CancellationReason` (`rename_all = "snake_case"`). -/
def CancellationReason.toWire : CancellationReason → String
  | .Duplicate => "duplicate"
  | .Fraudulent => "fraudulent"
  | .RequestedByCustomer => "requested_by_customer"
  | .Other => "other"

/-- `CaptureMethod` of `payment_intents.rs`. -/
inductive CaptureMethod where
  | Automatic
  | Manual
  | Other
deriving DecidableEq

/-- Serialization of `CaptureMethod` (`rename_all = "snake_case"`). -/
def CaptureMethod.toWire : CaptureMethod → String
  | .Automatic => "automatic"
  | .Manual => "manual"
  | .Other => "other"

/-- `ConfirmationMethod` of `payment_intents.rs`. -/
inductive ConfirmationMethod where
  | Secret
  | Publishable
  | Other
deriving DecidableEq

/-- `SourceActionType` of `payment_intents.rs`. -/
inductive SourceActionType where
  | AuthorizeWithUrl
  | UseStripeSdk
  | Other
deriving DecidableEq

/-- `PayoutFailureCode` of `payout.rs`. -/
inductive PayoutFailureCode where
  | AccountClosed
  | AccountFrozen
  | BankAccountRestricted
  | BankOwnershipChanged
  | CouldNotProcess
  | DebitNotAuthorized
  | Declined
  | InsufficientFunds
  | InvalidAccountNumber
  | IncorrectAccountHolderName
  | InvalidCurrency
  | NoAccount
  | UnsupportedCard
  | Other
deriving DecidableEq

/-- The known wire names of `PayoutFailureCode`. -/
def payoutFailureCodeWireNames : List String :=
  ["account_closed", "account_frozen", "bank_account_restricted",
   "bank_ownership_changed", "could_not_process", "debit_not_authorized",
   "declined", "insufficient_funds", "invalid_account_number",
   "incorrect_account_holder_name", "invalid_currency", "no_account",
   "unsupported_card"]

/-- Deserialization of `PayoutFailureCode`: known snake_case names map to
their variants, anything else to the `#[serde(other)]` variant. -/
def PayoutFailureCode.fromWire (s : String) : PayoutFailureCode :=
  if s = "account_closed" then .AccountClosed
  else if s = "account_frozen" then .AccountFrozen
  else if s = "bank_account_restricted" then .BankAccountRestricted
  else if s = "bank_ownership_changed" then .BankOwnershipChanged
  else if s = "could_not_process" then .CouldNotProcess
  else if s = "debit_not_authorized" then .DebitNotAuthorized
  else if s = "declined" then .Declined
  else if s = "insufficient_funds" then .InsufficientFunds
  else if s = "invalid_account_number" then .InvalidAccountNumber
  else if s = "incorrect_account_holder_name" then .IncorrectAccountHolderName
  else if s = "invalid_currency" then .InvalidCurrency
  else if s = "no_account" then .NoAccount
  else if s = "unsupported_card" then .UnsupportedCard
  else .Other

/-- `PayoutMethod` of `payout.rs`. -/
inductive PayoutMethod where
  | Standard
  | Instant
  | Other
deriving DecidableEq

/-- Serialization of `PayoutMethod` (`rename_all = "snake_case"`). -/
def PayoutMethod.toWire : PayoutMethod → String
  | .Standard => "standard"
  | .Instant => "instant"
  | .Other => "other"

/-- `PayoutSourceType` of `payout.rs`. -/
inductive PayoutSourceType where
  | Card
  | BankAccount
  | AlipayAccount
  | Other
deriving DecidableEq

/-- Serialization of `PayoutSourceType` (`rename_all = "snake_case"`). -/
def PayoutSourceType.toWire : PayoutSourceType → String
  | .Card => "card"
  | .BankAccount => "bank_account"
  | .AlipayAccount => "alipay_account"
  | .Other => "other"

/-- `PayoutStatus` of `payout.rs`. -/
inductive PayoutStatus where
  | Paid
  | Pending
  | InTransit
  | Canceled
  | Failed
  | Other
deriving DecidableEq

/-- Serialization of `PayoutStatus` (`rename_all = "snake_case"`). -/
def PayoutStatus.toWire : PayoutStatus → String
  | .Paid => "paid"
  | .Pending => "pending"
  | .InTransit => "in_transit"
  | .Canceled => "canceled"
  | .Failed => "failed"
  | .Other => "other"

/-- The known wire names of `PayoutStatus`. -/
def payoutStatusWireNames : List String :=
  ["paid", "pending", "in_transit", "canceled", "failed"]

/-- Deserialization of `PayoutStatus`: known snake_case names map to their
variants, anything else to the `#[serde(other)]` variant. -/
def PayoutStatus.fromWire (s : String) : PayoutStatus :=
  if s = "paid" then .Paid
  else if s = "pending" then .Pending
  else if s = "in_transit" then .InTransit
  else if s = "canceled" then .Canceled
  else if s = "failed" then .Failed
  else .Other

/-- `PayoutType` of `payout.rs`. -/
inductive PayoutType where
  | BankAccount
  | Card
  | Other
deriving DecidableEq

/-- Decoding a `PaymentIntentStatus` out of the JSON value of a `status`
field, as the serde-derived deserializer does: a string decodes (totally)
through `fromWire`, any non-string shape is a decode failure. -/
def decodePaymentIntentStatus : Json → Except DecodeError PaymentIntentStatus
  | .str s => .ok (PaymentIntentStatus.fromWire s)
  | _ => .error ⟨"expected a string for PaymentIntentStatus"⟩

/-- Decoding a `PayoutStatus` out of the JSON value of a `status` field. -/
def decodePayoutStatus : Json → Except DecodeError PayoutStatus
  | .str s => .ok (PayoutStatus.fromWire s)
  | _ => .error ⟨"expected a string for PayoutStatus"⟩

/-! ## Resource records -/

/-- `PaymentError` of `payment_intents.rs` (the `type` field is named
`payment_error_type` in the source and serde-renamed on the wire). -/
structure PaymentError where
  payment_error_type : PaymentErrorType
  charge : Option String
  code : Option String
  decline_code : Option String
  doc_url : Option String
  message : Option String
  param : Option String
  source : Option String

/-- `AuthorizeWithUrl` of `payment_intents.rs`. -/
structure AuthorizeWithUrl where
  return_url : Option String
  url : Option String

/-- `NextSourceAction` of `payment_intents.rs` (the `use_stripe_sdk` field
is an opaque `serde_json::Value`). -/
structure NextSourceAction where
  authorize_with_url : AuthorizeWithUrl
  action_type : SourceActionType
  use_stripe_sdk : Json

/-- `TransferData` of `payment_intents.rs`. -/
structure TransferData where
  destination : Option String

/-- The `PaymentIntent` resource record of `payment_intents.rs`. -/
structure PaymentIntent where
  id : String
  object : String
  allowed_source_types : List String
  amount : Nat
  amount_capturable : Nat
  amount_received : Nat
  application : Option String
  application_fee_amount : Option Nat
  canceled_at : Option Timestamp
  cancellation_reason : Option CancellationReason
  capture_method : CaptureMethod
  charges : StripeList Charge
  client_secret : Option String
  confirmation_method : Option ConfirmationMethod
  created : Timestamp
  currency : Currency
  customer : Option String
  description : Option String
  last_payment_error : Option PaymentError
  livemode : Bool
  metadata : Metadata
  next_source_action : Option NextSourceAction
  on_behalf_of : Option String
  receipt_email : Option String
  review : Option String
  shipping : Option ShippingDetails
  source : String
  statement_descriptor : Option String
  status : PaymentIntentStatus
  transfer_data : Option TransferData
  transfer_group : Option String

/-- `impl Identifiable for PaymentIntent`: the accessor returns the
record's `id` field. -/
instance : Identifiable PaymentIntent :=
  ⟨PaymentIntent.id⟩

/-- The `Payout` resource record of `payout.rs`. -/
structure Payout where
  id : String
  object : String
  amount : Nat
  arrival_date : Timestamp
  balance_transaction : String
  created : Timestamp
  currency : Currency
  description : String
  destination : Option String
  failure_balance_transaction : Option String
  failure_code : Option PayoutFailureCode
  failure_message : Option String
  livemode : Bool
  metadata : Metadata
  method : PayoutMethod
  source_type : PayoutSourceType
  statement_descriptor : Option String
  status : PayoutStatus
  payout_type : PayoutType

/-- `impl Identifiable for Payout`: the accessor returns the record's `id`
field. -/
instance : Identifiable Payout :=
  ⟨Payout.id⟩

/-! ## Body serialization of the parameter records

Each params struct derives `Serialize`; every `Option` field carries
`#[serde(skip_serializing_if = "Option::is_none")]`, so an unset field
contributes no key-value pair at all.  Fields serialize in declaration
order. -/

/-- One optional serde field: absent when unset, one key-value pair when
set (`skip_serializing_if = "Option::is_none"`). -/
def optField {α : Type} (key : String) (enc : α → Json) (o : Option α) :
    List (String × Json) :=
  match o with
  | none => []
  | some v => [(key, enc v)]

/-- Serde encoding of an unsigned integer field. -/
def encodeNat (n : Nat) : Json :=
  Json.num (Int.ofNat n)

/-- Serde encoding of a currency value. -/
def encodeCurrency (c : Currency) : Json :=
  Json.str c.code

/-- Serde encoding of a metadata map: a flat JSON object of
string-to-string (spec section 4.1). -/
def encodeMetadata (m : Metadata) : Json :=
  Json.obj (m.map fun kv => (kv.1, Json.str kv.2))

/-- Serde encoding of a shipping-details record (opaque, see
`ShippingDetails`). -/
def encodeShippingDetails (sd : ShippingDetails) : Json :=
  Json.obj (sd.fields.map fun kv => (kv.1, Json.str kv.2))

/-- Serde encoding of a `TransferData` record. -/
def encodeTransferData (td : TransferData) : Json :=
  Json.obj (optField "destination" Json.str td.destination)

/-- Serde encoding of a list of strings. -/
def encodeStringList (xs : List String) : Json :=
  Json.arr (xs.map Json.str)

/-- `PaymentIntentCreateParams` of `payment_intents.rs`. -/
structure PaymentIntentCreateParams where
  allowed_source_types : List String
  amount : Nat
  currency : Currency
  application_fee_amount : Option Nat
  capture_method : Option CaptureMethod
  confirm : Option Bool
  customer : Option String
  description : Option String
  metadata : Option Metadata
  on_behalf_of : Option String
  receipt_email : Option String
  return_url : Option String
  save_source_to_customer : Option Bool
  shipping : Option ShippingDetails
  source : Option String
  statement_descriptor : Option String
  transfer_data : Option TransferData
  transfer_group : Option String

/-- Derived `Serialize` of `PaymentIntentCreateParams`: the three required
fields always serialize; every optional field is skipped when `None`. -/
def serializePaymentIntentCreateParams (p : PaymentIntentCreateParams) :
    List (String × Json) :=
  [("allowed_source_types", encodeStringList p.allowed_source_types),
   ("amount", encodeNat p.amount),
   ("currency", encodeCurrency p.currency)] ++
  optField "application_fee_amount" encodeNat p.application_fee_amount ++
  optField "capture_method" (fun m => Json.str m.toWire) p.capture_method ++
  optField "confirm" Json.bool p.confirm ++
  optField "customer" Json.str p.customer ++
  optField "description" Json.str p.description ++
  optField "metadata" encodeMetadata p.metadata ++
  optField "on_behalf_of" Json.str p.on_behalf_of ++
  optField "receipt_email" Json.str p.receipt_email ++
  optField "return_url" Json.str p.return_url ++
  optField "save_source_to_customer" Json.bool p.save_source_to_customer ++
  optField "shipping" encodeShippingDetails p.shipping ++
  optField "source" Json.str p.source ++
  optField "statement_descriptor" Json.str p.statement_descriptor ++
  optField "transfer_data" encodeTransferData p.transfer_data ++
  optField "transfer_group" Json.str p.transfer_group

/-- `PaymentIntentUpdateParams` of `payment_intents.rs`: every field is
optional and skip-serialized when unset. -/
structure PaymentIntentUpdateParams where
  amount : Option Nat
  application_fee_amount : Option Nat
  currency : Option Currency
  customer : Option String
  description : Option String
  metadata : Option Metadata
  receipt_email : Option String
  save_source_to_customer : Option Bool
  shipping : Option ShippingDetails
  source : Option String
  transfer_group : Option String

/-- Derived `Serialize` of `PaymentIntentUpdateParams`. -/
def serializePaymentIntentUpdateParams (p : PaymentIntentUpdateParams) :
    List (String × Json) :=
  optField "amount" encodeNat p.amount ++
  optField "application_fee_amount" encodeNat p.application_fee_amount ++
  optField "currency" encodeCurrency p.currency ++
  optField "customer" Json.str p.customer ++
  optField "description" Json.str p.description ++
  optField "metadata" encodeMetadata p.metadata ++
  optField "receipt_email" Json.str p.receipt_email ++
  optField "save_source_to_customer" Json.bool p.save_source_to_customer ++
  optField "shipping" encodeShippingDetails p.shipping ++
  optField "source" Json.str p.source ++
  optField "transfer_group" Json.str p.transfer_group

/-- `PaymentIntentConfirmParams` of `payment_intents.rs`. -/
structure PaymentIntentConfirmParams where
  receipt_email : Option String
  return_url : Option String
  save_source_to_customer : Option Bool
  shipping : Option ShippingDetails
  source : Option String

/-- Derived `Serialize` of `PaymentIntentConfirmParams`. -/
def serializePaymentIntentConfirmParams (p : PaymentIntentConfirmParams) :
    List (String × Json) :=
  optField "receipt_email" Json.str p.receipt_email ++
  optField "return_url" Json.str p.return_url ++
  optField "save_source_to_customer" Json.bool p.save_source_to_customer ++
  optField "shipping" encodeShippingDetails p.shipping ++
  optField "source" Json.str p.source

/-- `PaymentIntentCaptureParams` of `payment_intents.rs`. -/
structure PaymentIntentCaptureParams where
  amount_to_capture : Option Nat
  application_fee_amount : Option Nat

/-- Derived `Serialize` of `PaymentIntentCaptureParams`. -/
def serializePaymentIntentCaptureParams (p : PaymentIntentCaptureParams) :
    List (String × Json) :=
  optField "amount_to_capture" encodeNat p.amount_to_capture ++
  optField "application_fee_amount" encodeNat p.application_fee_amount

/-- `PaymentIntentCancelParams` of `payment_intents.rs`: a single optional
cancellation reason. -/
structure PaymentIntentCancelParams where
  cancellation_reason : Option CancellationReason

/-- Derived `Serialize` of `PaymentIntentCancelParams`. -/
def serializePaymentIntentCancelParams (p : PaymentIntentCancelParams) :
    List (String × Json) :=
  optField "cancellation_reason" (fun r => Json.str r.toWire)
    p.cancellation_reason

/-- `PayoutParams` of `payout.rs` (the create parameters). -/
structure PayoutParams where
  amount : Nat
  currency : Currency
  description : Option String
  destination : Option String
  metadata : Option Metadata
  method : Option PayoutMethod
  source_type : Option PayoutSourceType
  statement_descriptor : Option String

/-- Derived `Serialize` of `PayoutParams`. -/
def serializePayoutParams (p : PayoutParams) : List (String × Json) :=
  [("amount", encodeNat p.amount),
   ("currency", encodeCurrency p.currency)] ++
  optField "description" Json.str p.description ++
  optField "destination" Json.str p.destination ++
  optField "metadata" encodeMetadata p.metadata ++
  optField "method" (fun m => Json.str m.toWire) p.method ++
  optField "source_type" (fun t => Json.str t.toWire) p.source_type ++
  optField "statement_descriptor" Json.str p.statement_descriptor

/-- Modelled from the spec: `Payout::update` posts an `Option<Metadata>`
as its whole params value; an entirely unset value is omitted from the
body (an empty body), never serialized as an explicit null, and a present
map serializes to its string-to-string pairs (spec sections 4.1 and
4.5). -/
def serializeOptionalMetadata (o : Option Metadata) : List (String × Json) :=
  match o with
  | none => []
  | some m => m.map fun kv => (kv.1, Json.str kv.2)

/-! ## Query-string encoding of the list parameters

`serde_qs::to_string` is not under `src/`; it is modelled from the spec
(sections 4.2, 6 and 7): set fields flatten to `key=value` fragments in
declaration order, a range query flattens to bracketed keys
(`field[gt]=...`), unset fields are omitted entirely, and serialization
fails with an `EncodingError` when a string parameter contains an illegal
character (modelled as a control character, spec section 7). -/

/-- One optional query parameter: absent when unset, one key-value pair
when set. -/
def optPair {α : Type} (key : String) (render : α → String) (o : Option α) :
    List (String × String) :=
  match o with
  | none => []
  | some v => [(key, render v)]

/-- Bracketed-key flattening of a range query (spec section 4.2): each
bound, if present, encodes independently as its decimal integer
representation under the given bracketed key. -/
def RangeQuery.qsPairs (kGt kGte kLt kLte : String)
    (r : RangeQuery Timestamp) : List (String × String) :=
  optPair kGt toString r.gt ++
  optPair kGte toString r.gte ++
  optPair kLt toString r.lt ++
  optPair kLte toString r.lte

/-- An optional range-query filter: an unset filter contributes no
fragments at all. -/
def optRangePairs (kGt kGte kLt kLte : String)
    (o : Option (RangeQuery Timestamp)) : List (String × String) :=
  match o with
  | none => []
  | some r => r.qsPairs kGt kGte kLt kLte

/-- Modelled from the spec: whether a string is legal inside a query
parameter (section 7 allows encoding to fail on illegal characters;
modelled as rejecting control characters). -/
def legalQsString (s : String) : Bool :=
  s.data.all fun c => 32 ≤ c.toNat

/-- Legality of an optional string parameter. -/
def optStringLegal (o : Option String) : Bool :=
  match o with
  | none => true
  | some s => legalQsString s

/-- The fixed error a failed query-string serialization reports. -/
def qsIllegalCharacters : EncodingError :=
  ⟨"illegal characters in query parameters"⟩

/-- Rendering of the flattened pairs as a query string:
`key=value` fragments joined by ampersands. -/
def renderQuery (ps : List (String × String)) : String :=
  String.intercalate "&" (ps.map fun kv => kv.1 ++ "=" ++ kv.2)

/-- `PaymentIntentListParams` of `payment_intents.rs`: every field is
optional and skip-serialized when unset. -/
structure PaymentIntentListParams where
  created : Option (RangeQuery Timestamp)
  ending_before : Option String
  limit : Option Int
  starting_after : Option String

/-- The flattened query pairs of `PaymentIntentListParams`, in field
declaration order. -/
def PaymentIntentListParams.qsPairs (p : PaymentIntentListParams) :
    List (String × String) :=
  optRangePairs "created[gt]" "created[gte]" "created[lt]" "created[lte]"
    p.created ++
  optPair "ending_before" (fun s => s) p.ending_before ++
  optPair "limit" toString p.limit ++
  optPair "starting_after" (fun s => s) p.starting_after

/-- The keys appearing in the encoded form of `PaymentIntentListParams`. -/
def PaymentIntentListParams.qsKeys (p : PaymentIntentListParams) :
    List String :=
  p.qsPairs.map Prod.fst

/-- Legality of the string parameters of `PaymentIntentListParams`. -/
def PaymentIntentListParams.qsLegal (p : PaymentIntentListParams) : Bool :=
  optStringLegal p.ending_before && optStringLegal p.starting_after

/-- Modelled from the spec: `serde_qs::to_string` on
`PaymentIntentListParams` — the rendered query string, or an
`EncodingError` on illegal characters. -/
def paymentIntentListQueryString (p : PaymentIntentListParams) :
    Except EncodingError String :=
  match p.qsLegal with
  | true => .ok (renderQuery p.qsPairs)
  | false => .error qsIllegalCharacters

/-- `PayoutListParams` of `payout.rs`: every field is optional and
skip-serialized when unset. -/
structure PayoutListParams where
  arrival_date : Option (RangeQuery Timestamp)
  created : Option (RangeQuery Timestamp)
  destination : Option String
  ending_before : Option String
  limit : Option Int
  starting_after : Option String
  status : Option PayoutStatus

/-- The flattened query pairs of `PayoutListParams`, in field declaration
order. -/
def PayoutListParams.qsPairs (p : PayoutListParams) :
    List (String × String) :=
  optRangePairs "arrival_date[gt]" "arrival_date[gte]" "arrival_date[lt]"
    "arrival_date[lte]" p.arrival_date ++
  optRangePairs "created[gt]" "created[gte]" "created[lt]" "created[lte]"
    p.created ++
  optPair "destination" (fun s => s) p.destination ++
  optPair "ending_before" (fun s => s) p.ending_before ++
  optPair "limit" toString p.limit ++
  optPair "starting_after" (fun s => s) p.starting_after ++
  optPair "status" PayoutStatus.toWire p.status

/-- Legality of the string parameters of `PayoutListParams`. -/
def PayoutListParams.qsLegal (p : PayoutListParams) : Bool :=
  optStringLegal p.destination && optStringLegal p.ending_before &&
  optStringLegal p.starting_after

/-- Modelled from the spec: `serde_qs::to_string` on `PayoutListParams`. -/
def payoutListQueryString (p : PayoutListParams) :
    Except EncodingError String :=
  match p.qsLegal with
  | true => .ok (renderQuery p.qsPairs)
  | false => .error qsIllegalCharacters

/-! ## Operation templates

Each operation is embedded as the request it hands to the (modelled)
client, mirroring the `impl PaymentIntent` and `impl Payout` blocks; the
`format!` path templates become string concatenation. -/

/-- `PaymentIntent::create`: POST to the collection path with the params
serialized as the body. -/
def PaymentIntent.create (params : PaymentIntentCreateParams) : Request :=
  Client.post "/payment_intents" (serializePaymentIntentCreateParams params)

/-- `PaymentIntent::retrieve`: GET to the interpolated instance path. -/
def PaymentIntent.retrieve (payment_intent_id : String) : Request :=
  Client.get ("/payment_intents/" ++ payment_intent_id)

/-- `PaymentIntent::update`: POST to the interpolated instance path. -/
def PaymentIntent.update (payment_intent_id : String)
    (params : PaymentIntentUpdateParams) : Request :=
  Client.post ("/payment_intents/" ++ payment_intent_id)
    (serializePaymentIntentUpdateParams params)

/-- `PaymentIntent::confirm`: POST to the confirm sub-action path. -/
def PaymentIntent.confirm (payment_intent_id : String)
    (params : PaymentIntentConfirmParams) : Request :=
  Client.post ("/payment_intents/" ++ payment_intent_id ++ "/confirm")
    (serializePaymentIntentConfirmParams params)

/-- `PaymentIntent::capture`: POST to the capture sub-action path. -/
def PaymentIntent.capture (payment_intent_id : String)
    (params : PaymentIntentCaptureParams) : Request :=
  Client.post ("/payment_intents/" ++ payment_intent_id ++ "/capture")
    (serializePaymentIntentCaptureParams params)

/-- `PaymentIntent::cancel`: POST to the cancel sub-action path. -/
def PaymentIntent.cancel (payment_intent_id : String)
    (params : PaymentIntentCancelParams) : Request :=
  Client.post ("/payment_intents/" ++ payment_intent_id ++ "/cancel")
    (serializePaymentIntentCancelParams params)

/-- `PaymentIntent::list`: GET to the collection path with the encoded
query string; a failed encoding propagates as a typed error (the `?`
operator of the source) and no request is issued. -/
def PaymentIntent.list (params : PaymentIntentListParams) :
    Except Error Request :=
  match paymentIntentListQueryString params with
  | .ok q => .ok (Client.get ("/payment_intents?" ++ q))
  | .error e => .error (Error.encoding e)

/-- `Payout::create`: POST to the collection path with the params
serialized as the body. -/
def Payout.create (params : PayoutParams) : Request :=
  Client.post "/payouts" (serializePayoutParams params)

/-- `Payout::retrieve`: GET to the interpolated instance path. -/
def Payout.retrieve (payout_id : String) : Request :=
  Client.get ("/payouts/" ++ payout_id)

/-- `Payout::update`: POST to the interpolated instance path with the
optional metadata as the whole params value. -/
def Payout.update (payout_id : String) (metadata : Option Metadata) :
    Request :=
  Client.post ("/payouts/" ++ payout_id) (serializeOptionalMetadata metadata)

/-- `Payout::list`: GET to the collection path with the encoded query
string; a failed encoding propagates as a typed error. -/
def Payout.list (params : PayoutListParams) : Except Error Request :=
  match payoutListQueryString params with
  | .ok q => .ok (Client.get ("/payouts?" ++ q))
  | .error e => .error (Error.encoding e)

/-- `Payout::cancel`: a no-body POST (`post_empty`) to the cancel
sub-action path. -/
def Payout.cancel (payout_id : String) : Request :=
  Client.postEmpty ("/payouts/" ++ payout_id ++ "/cancel")

/-! ## Helper lemmas -/

/-- The key list an optional field contributes: nothing when unset, its
key when set. -/
def optKey {α : Type} (key : String) (o : Option α) : List String :=
  match o with
  | none => []
  | some _ => [key]

theorem map_fst_optField {α : Type} (key : String) (enc : α → Json)
    (o : Option α) : (optField key enc o).map Prod.fst = optKey key o := by
  cases o <;> rfl

theorem map_fst_optPair {α : Type} (key : String) (render : α → String)
    (o : Option α) : (optPair key render o).map Prod.fst = optKey key o := by
  cases o <;> rfl

theorem mem_optKey {α : Type} (a key : String) (o : Option α) :
    a ∈ optKey key o ↔ a = key ∧ o.isSome = true := by
  cases o <;> simp [optKey]

theorem mem_optField {α : Type} {kv : String × Json} {key : String}
    {enc : α → Json} {o : Option α} (h : kv ∈ optField key enc o) :
    ∃ v, o = some v ∧ kv = (key, enc v) := by
  cases o with
  | none => simp [optField] at h
  | some v =>
    simp only [optField, List.mem_singleton] at h
    exact ⟨v, rfl, h⟩

theorem optField_all_not_null {α : Type} (key : String) (enc : α → Json)
    (h : ∀ v, (enc v).isNull = false) (o : Option α) :
    (optField key enc o).all (fun kv => !kv.2.isNull) = true := by
  cases o <;> simp [optField, h]

theorem encodeNat_not_null (v : Nat) : (encodeNat v).isNull = false := rfl

theorem encodeCurrency_not_null (v : Currency) :
    (encodeCurrency v).isNull = false := rfl

theorem encodeMetadata_not_null (v : Metadata) :
    (encodeMetadata v).isNull = false := rfl

theorem encodeShippingDetails_not_null (v : ShippingDetails) :
    (encodeShippingDetails v).isNull = false := rfl

theorem str_not_null (v : String) : (Json.str v).isNull = false := rfl

theorem bool_not_null (v : Bool) : (Json.bool v).isNull = false := rfl

/-- The keys of the serialized update params, field by field. -/
theorem serializePaymentIntentUpdateParams_keys
    (p : PaymentIntentUpdateParams) :
    (serializePaymentIntentUpdateParams p).map Prod.fst =
      optKey "amount" p.amount ++
      optKey "application_fee_amount" p.application_fee_amount ++
      optKey "currency" p.currency ++
      optKey "customer" p.customer ++
      optKey "description" p.description ++
      optKey "metadata" p.metadata ++
      optKey "receipt_email" p.receipt_email ++
      optKey "save_source_to_customer" p.save_source_to_customer ++
      optKey "shipping" p.shipping ++
      optKey "source" p.source ++
      optKey "transfer_group" p.transfer_group := by
  simp [serializePaymentIntentUpdateParams, List.map_append, map_fst_optField]

/-- The key list an optional range filter contributes. -/
def optRangeKeys (kGt kGte kLt kLte : String)
    (o : Option (RangeQuery Timestamp)) : List String :=
  match o with
  | none => []
  | some r =>
      optKey kGt r.gt ++ optKey kGte r.gte ++ optKey kLt r.lt ++
      optKey kLte r.lte

theorem map_fst_optRangePairs (kGt kGte kLt kLte : String)
    (o : Option (RangeQuery Timestamp)) :
    (optRangePairs kGt kGte kLt kLte o).map Prod.fst =
      optRangeKeys kGt kGte kLt kLte o := by
  cases o <;>
    simp [optRangePairs, optRangeKeys, RangeQuery.qsPairs, List.map_append,
      map_fst_optPair]

theorem mem_optRangeKeys_iff (a kGt kGte kLt kLte : String)
    (o : Option (RangeQuery Timestamp)) :
    a ∈ optRangeKeys kGt kGte kLt kLte o ↔
      ∃ r, o = some r ∧
        ((a = kGt ∧ r.gt.isSome = true) ∨ (a = kGte ∧ r.gte.isSome = true) ∨
         (a = kLt ∧ r.lt.isSome = true) ∨ (a = kLte ∧ r.lte.isSome = true)) := by
  cases o <;> simp [optRangeKeys, List.mem_append, mem_optKey]

/-- The keys of the encoded payment-intent list params, field by field. -/
theorem paymentIntentListParams_qsKeys_eq (p : PaymentIntentListParams) :
    p.qsKeys =
      optRangeKeys "created[gt]" "created[gte]" "created[lt]" "created[lte]"
        p.created ++
      optKey "ending_before" p.ending_before ++
      optKey "limit" p.limit ++
      optKey "starting_after" p.starting_after := by
  simp [PaymentIntentListParams.qsKeys, PaymentIntentListParams.qsPairs,
    List.map_append, map_fst_optPair, map_fst_optRangePairs]

/-- An unknown wire name decodes to the catch-all `PaymentIntentStatus`
variant. -/
theorem paymentIntentStatus_fromWire_unknown (s : String)
    (h : s ∉ paymentIntentStatusWireNames) :
    PaymentIntentStatus.fromWire s = .Other := by
  simp only [paymentIntentStatusWireNames, List.mem_cons, List.not_mem_nil,
    or_false, not_or] at h
  obtain ⟨h1, h2, h3, h4, h5, h6, h7⟩ := h
  simp [PaymentIntentStatus.fromWire, h1, h2, h3, h4, h5, h6, h7]

/-- An unknown wire name decodes to the catch-all `PayoutStatus`
variant. -/
theorem payoutStatus_fromWire_unknown (s : String)
    (h : s ∉ payoutStatusWireNames) : PayoutStatus.fromWire s = .Other := by
  simp only [payoutStatusWireNames, List.mem_cons, List.not_mem_nil,
    or_false, not_or] at h
  obtain ⟨h1, h2, h3, h4, h5⟩ := h
  simp [PayoutStatus.fromWire, h1, h2, h3, h4, h5]

/-- An unknown wire name decodes to the catch-all `PayoutFailureCode`
variant. -/
theorem payoutFailureCode_fromWire_unknown (s : String)
    (h : s ∉ payoutFailureCodeWireNames) :
    PayoutFailureCode.fromWire s = .Other := by
  simp only [payoutFailureCodeWireNames, List.mem_cons, List.not_mem_nil,
    or_false, not_or] at h
  obtain ⟨h1, h2, h3, h4, h5, h6, h7, h8, h9, h10, h11, h12, h13⟩ := h
  simp [PayoutFailureCode.fromWire, h1, h2, h3, h4, h5, h6, h7, h8, h9, h10,
    h11, h12, h13]

/-! ## Claims -/

/-- C1: calling `PaymentIntent::cancel` with an identifier and no
cancellation reason (all parameter fields unset) issues an HTTP POST to
`/payment_intents/{id}/cancel` with an empty request body, for every
identifier string. -/
theorem cancel_with_no_reason_posts_empty_body (payment_intent_id : String) :
    PaymentIntent.cancel payment_intent_id ⟨none⟩ =
      ⟨Method.post, "/payment_intents/" ++ payment_intent_id ++ "/cancel",
       []⟩ :=
  rfl

/-- C5: `create` issues an HTTP POST to the resource's collection path with
the parameters serialized as the body, and each sub-action (confirm,
capture, cancel) issues an HTTP POST to the templated
`collection/id/action` path; the payout cancel carries no body. -/
theorem create_and_subactions_post_to_templated_paths
    (payment_intent_id payout_id : String) (cp : PaymentIntentCreateParams)
    (pp : PayoutParams) (fp : PaymentIntentConfirmParams)
    (ap : PaymentIntentCaptureParams) (xp : PaymentIntentCancelParams) :
    PaymentIntent.create cp =
      ⟨Method.post, "/payment_intents",
       serializePaymentIntentCreateParams cp⟩ ∧
    Payout.create pp = ⟨Method.post, "/payouts", serializePayoutParams pp⟩ ∧
    PaymentIntent.confirm payment_intent_id fp =
      ⟨Method.post, "/payment_intents/" ++ payment_intent_id ++ "/confirm",
       serializePaymentIntentConfirmParams fp⟩ ∧
    PaymentIntent.capture payment_intent_id ap =
      ⟨Method.post, "/payment_intents/" ++ payment_intent_id ++ "/capture",
       serializePaymentIntentCaptureParams ap⟩ ∧
    PaymentIntent.cancel payment_intent_id xp =
      ⟨Method.post, "/payment_intents/" ++ payment_intent_id ++ "/cancel",
       serializePaymentIntentCancelParams xp⟩ ∧
    Payout.cancel payout_id =
      ⟨Method.post, "/payouts/" ++ payout_id ++ "/cancel", []⟩ :=
  ⟨rfl, rfl, rfl, rfl, rfl, rfl⟩

/-- C6: for every identifier string (including empty or malformed ones,
which the template does not validate), `retrieve` issues an HTTP GET to
exactly the collection path followed by the identifier, interpolated
verbatim. -/
theorem retrieve_gets_verbatim_path (payment_intent_id payout_id : String) :
    PaymentIntent.retrieve payment_intent_id =
      ⟨Method.get, "/payment_intents/" ++ payment_intent_id, []⟩ ∧
    Payout.retrieve payout_id =
      ⟨Method.get, "/payouts/" ++ payout_id, []⟩ :=
  ⟨rfl, rfl⟩

/-- C9: for every `PaymentIntent` and every `Payout`, the `Identifiable`
accessor returns the string of the record's `id` field, without modifying
the record (the accessor is a pure function of it). -/
theorem identifiable_id_matches_record_field (p : PaymentIntent)
    (q : Payout) : Identifiable.id p = p.id ∧ Identifiable.id q = q.id :=
  ⟨rfl, rfl⟩

/-- C10: for every known (non-`Other`) variant of `PaymentIntentStatus`
and `PayoutStatus`, serializing produces the snake_case wire name
(e.g. `RequiresConfirmation` serializes to `"requires_confirmation"`) and
deserializing that wire name yields the original variant:
serialize-then-deserialize is the identity on the known variants. -/
theorem status_wire_roundtrip (s : PaymentIntentStatus) (t : PayoutStatus) :
    PaymentIntentStatus.toWire .RequiresConfirmation =
      "requires_confirmation" ∧
    (s ≠ PaymentIntentStatus.Other →
      PaymentIntentStatus.fromWire s.toWire = s) ∧
    (t ≠ PayoutStatus.Other → PayoutStatus.fromWire t.toWire = t) := by
  refine ⟨rfl, ?_, ?_⟩
  · cases s <;> decide
  · cases t <;> decide

/-- Witness for C10 at the claim's own example variant. -/
theorem status_wire_roundtrip_witness :
    PaymentIntentStatus.fromWire
        (PaymentIntentStatus.toWire .RequiresConfirmation) =
      .RequiresConfirmation :=
  (status_wire_roundtrip .RequiresConfirmation .Paid).2.1 (by decide)

/-- C3: for every string value of a status field absent from the known
variant set of its enumeration, decoding succeeds and yields the
designated unrecognized variant rather than a decode failure, for
`PaymentIntentStatus` and `PayoutStatus` alike. -/
theorem unknown_status_decodes_to_other (s t : String)
    (hs : s ∉ paymentIntentStatusWireNames)
    (ht : t ∉ payoutStatusWireNames) :
    decodePaymentIntentStatus (Json.str s) =
      .ok PaymentIntentStatus.Other ∧
    decodePayoutStatus (Json.str t) = .ok PayoutStatus.Other := by
  constructor
  · simp [decodePaymentIntentStatus,
      paymentIntentStatus_fromWire_unknown s hs]
  · simp [decodePayoutStatus, payoutStatus_fromWire_unknown t ht]

/-- Witness for C3 at a concrete unknown wire value. -/
theorem unknown_status_decodes_to_other_witness :
    decodePaymentIntentStatus (Json.str "brand_new_status") =
      .ok PaymentIntentStatus.Other ∧
    decodePayoutStatus (Json.str "brand_new_status") =
      .ok PayoutStatus.Other :=
  unknown_status_decodes_to_other "brand_new_status" "brand_new_status"
    (by decide) (by decide)

/-- C4 counterexample: the `#[serde(other)]` arm is a unit variant, so the
raw string cannot be recovered from the decoded value — two distinct
unknown inputs decode to the very same value, hence no accessor can return
each one's raw string. -/
theorem other_variant_does_not_carry_raw_string :
    ¬ ∃ recover : PaymentIntentStatus → String,
        recover (PaymentIntentStatus.fromWire "unknown_status_a") =
          "unknown_status_a" ∧
        recover (PaymentIntentStatus.fromWire "unknown_status_b") =
          "unknown_status_b" := by
  rintro ⟨f, ha, hb⟩
  have he : PaymentIntentStatus.fromWire "unknown_status_a" =
      PaymentIntentStatus.fromWire "unknown_status_b" := by decide
  rw [he] at ha
  exact absurd (ha.symm.trans hb) (by decide)

/-- C4 as amended: each enumerated field is a sum type with a designated
unrecognized arm, and for every unknown input string decoding yields that
arm — a unit variant that does not carry the raw string (shown for
`PaymentIntentStatus` and `PayoutFailureCode`, the claim's cited
enumerations). -/
theorem unknown_value_decodes_to_unit_other (s t : String)
    (hs : s ∉ paymentIntentStatusWireNames)
    (ht : t ∉ payoutFailureCodeWireNames) :
    PaymentIntentStatus.fromWire s = .Other ∧
    PayoutFailureCode.fromWire t = .Other :=
  ⟨paymentIntentStatus_fromWire_unknown s hs,
   payoutFailureCode_fromWire_unknown t ht⟩

/-- Witness for the amended C4 at a concrete unknown wire value. -/
theorem unknown_value_decodes_to_unit_other_witness :
    PaymentIntentStatus.fromWire "mystery_value" = .Other ∧
    PayoutFailureCode.fromWire "mystery_value" = .Other :=
  unknown_value_decodes_to_unit_other "mystery_value" "mystery_value"
    (by decide) (by decide)

/-- Update params with every field unset, for concrete evaluation. -/
def emptyPaymentIntentUpdateParams : PaymentIntentUpdateParams :=
  ⟨none, none, none, none, none, none, none, none, none, none, none⟩

/-- C2: both update operations POST to `collection/id`, and every
parameter field left unset is omitted from the serialized body entirely —
no field, and no entirely unset params value, is ever serialized as an
explicit null. -/
theorem update_omits_unset_fields (payment_intent_id payout_id : String)
    (p : PaymentIntentUpdateParams) (md : Option Metadata) :
    PaymentIntent.update payment_intent_id p =
      ⟨Method.post, "/payment_intents/" ++ payment_intent_id,
       serializePaymentIntentUpdateParams p⟩ ∧
    Payout.update payout_id md =
      ⟨Method.post, "/payouts/" ++ payout_id,
       serializeOptionalMetadata md⟩ ∧
    (md = none → serializeOptionalMetadata md = []) ∧
    (serializePaymentIntentUpdateParams p).all
      (fun kv => !kv.2.isNull) = true ∧
    (serializeOptionalMetadata md).all (fun kv => !kv.2.isNull) = true ∧
    (p.amount = none →
      "amount" ∉ (serializePaymentIntentUpdateParams p).map Prod.fst) ∧
    (p.application_fee_amount = none →
      "application_fee_amount" ∉
        (serializePaymentIntentUpdateParams p).map Prod.fst) ∧
    (p.currency = none →
      "currency" ∉ (serializePaymentIntentUpdateParams p).map Prod.fst) ∧
    (p.customer = none →
      "customer" ∉ (serializePaymentIntentUpdateParams p).map Prod.fst) ∧
    (p.description = none →
      "description" ∉ (serializePaymentIntentUpdateParams p).map Prod.fst) ∧
    (p.metadata = none →
      "metadata" ∉ (serializePaymentIntentUpdateParams p).map Prod.fst) ∧
    (p.receipt_email = none →
      "receipt_email" ∉
        (serializePaymentIntentUpdateParams p).map Prod.fst) ∧
    (p.save_source_to_customer = none →
      "save_source_to_customer" ∉
        (serializePaymentIntentUpdateParams p).map Prod.fst) ∧
    (p.shipping = none →
      "shipping" ∉ (serializePaymentIntentUpdateParams p).map Prod.fst) ∧
    (p.source = none →
      "source" ∉ (serializePaymentIntentUpdateParams p).map Prod.fst) ∧
    (p.transfer_group = none →
      "transfer_group" ∉
        (serializePaymentIntentUpdateParams p).map Prod.fst) := by
  refine ⟨rfl, rfl, fun h => by rw [h]; rfl, ?_, ?_, ?_, ?_, ?_, ?_, ?_, ?_,
    ?_, ?_, ?_, ?_, ?_⟩
  · simp [serializePaymentIntentUpdateParams, List.all_append,
      optField_all_not_null, encodeNat_not_null, encodeCurrency_not_null,
      encodeMetadata_not_null, encodeShippingDetails_not_null, str_not_null,
      bool_not_null]
  · rw [List.all_eq_true]
    intro kv hkv
    cases md with
    | none => simp [serializeOptionalMetadata] at hkv
    | some m =>
      simp only [serializeOptionalMetadata, List.mem_map] at hkv
      obtain ⟨ab, -, rfl⟩ := hkv
      rfl
  all_goals
    intro h hmem
    rw [serializePaymentIntentUpdateParams_keys, h] at hmem
    simp [List.mem_append, mem_optKey] at hmem

/-- Witness for C2: an entirely unset `Payout::update` params value
serializes to an empty body. -/
theorem update_omits_unset_fields_witness :
    serializeOptionalMetadata none = [] :=
  (update_omits_unset_fields "pi_1" "po_1" emptyPaymentIntentUpdateParams
    none).2.2.1 rfl

/-- List params exercising a set range filter, a set limit and a set
cursor while `ending_before` stays unset. -/
def samplePaymentIntentListParams : PaymentIntentListParams :=
  ⟨some ⟨some 5, none, none, some 9⟩, none, some 10, some "pi_1"⟩

/-- C7: `list` issues an HTTP GET to `collection?encoded-params`, where
the encoding combines the range filter with the pagination controls
`limit`, `starting_after` and `ending_before`, every unset field
(including an unset range filter) contributing nothing at all to the
encoded form. -/
theorem list_query_encoding (p : PaymentIntentListParams)
    (hp : p.qsLegal = true) :
    PaymentIntent.list p =
      .ok ⟨Method.get, "/payment_intents?" ++ renderQuery p.qsPairs, []⟩ ∧
    (p.created = none →
      "created[gt]" ∉ p.qsKeys ∧ "created[gte]" ∉ p.qsKeys ∧
      "created[lt]" ∉ p.qsKeys ∧ "created[lte]" ∉ p.qsKeys) ∧
    (p.limit = none → "limit" ∉ p.qsKeys) ∧
    (p.starting_after = none → "starting_after" ∉ p.qsKeys) ∧
    (p.ending_before = none → "ending_before" ∉ p.qsKeys) ∧
    (∀ n, p.limit = some n → ("limit", toString n) ∈ p.qsPairs) ∧
    (∀ v, p.starting_after = some v →
      ("starting_after", v) ∈ p.qsPairs) ∧
    (∀ v, p.ending_before = some v → ("ending_before", v) ∈ p.qsPairs) ∧
    (∀ r n, p.created = some r → r.gt = some n →
      ("created[gt]", toString n) ∈ p.qsPairs) := by
  refine ⟨?_, ?_, ?_, ?_, ?_, ?_, ?_, ?_, ?_⟩
  · simp [PaymentIntent.list, paymentIntentListQueryString, hp, Client.get]
  · intro h
    refine ⟨?_, ?_, ?_, ?_⟩ <;>
      · intro hmem
        rw [paymentIntentListParams_qsKeys_eq, h] at hmem
        simp [optRangeKeys, List.mem_append, mem_optKey] at hmem
  · intro h hmem
    rw [paymentIntentListParams_qsKeys_eq] at hmem
    simp [mem_optRangeKeys_iff, mem_optKey, h, List.mem_append] at hmem
  · intro h hmem
    rw [paymentIntentListParams_qsKeys_eq] at hmem
    simp [mem_optRangeKeys_iff, mem_optKey, h, List.mem_append] at hmem
  · intro h hmem
    rw [paymentIntentListParams_qsKeys_eq] at hmem
    simp [mem_optRangeKeys_iff, mem_optKey, h, List.mem_append] at hmem
  · intro n h
    simp [PaymentIntentListParams.qsPairs, h, optPair, List.mem_append]
  · intro v h
    simp [PaymentIntentListParams.qsPairs, h, optPair, List.mem_append]
  · intro v h
    simp [PaymentIntentListParams.qsPairs, h, optPair, List.mem_append]
  · intro r n hc hg
    simp [PaymentIntentListParams.qsPairs, hc, hg, optRangePairs,
      RangeQuery.qsPairs, optPair, List.mem_append]

/-- Witness for C7: on concrete params with `ending_before` unset, its key
is absent from the encoded form. -/
theorem list_query_encoding_witness :
    "ending_before" ∉
      PaymentIntentListParams.qsKeys samplePaymentIntentListParams :=
  (list_query_encoding samplePaymentIntentListParams
    (by decide)).2.2.2.2.1 rfl

/-- List params whose cursor string holds a control character the modelled
encoding rules forbid. -/
def illegalPaymentIntentListParams : PaymentIntentListParams :=
  ⟨none, none, none, some "\x00"⟩

/-- Payout list params with every field unset. -/
def emptyPayoutListParams : PayoutListParams :=
  ⟨none, none, none, none, none, none, none⟩

/-- C8: when the list parameters cannot be serialized into a query string,
both list operations return the typed encoding-error failure to their
caller — the returned value is the error, so no request is handed to the
transport. -/
theorem list_encoding_error_propagates (p : PaymentIntentListParams)
    (q : PayoutListParams) (e f : EncodingError) :
    (paymentIntentListQueryString p = .error e →
      PaymentIntent.list p = .error (Error.encoding e)) ∧
    (payoutListQueryString q = .error f →
      Payout.list q = .error (Error.encoding f)) := by
  constructor
  · intro h
    simp [PaymentIntent.list, h]
  · intro h
    simp [Payout.list, h]

/-- Witness for C8: concrete params with an illegal character fail to
encode and `list` returns the typed encoding error. -/
theorem list_encoding_error_propagates_witness :
    PaymentIntent.list illegalPaymentIntentListParams =
      .error (Error.encoding qsIllegalCharacters) :=
  (list_encoding_error_propagates illegalPaymentIntentListParams
    emptyPayoutListParams qsIllegalCharacters qsIllegalCharacters).1 rfl
